import Mathlib

/-!
Shallow embedding of the strategy construction and backtesting core of the
ETF_AGENT repository and theorems settling the frozen claims about it.

Embedded source files:
  backend/app/strategy/engine.py      (StrategyEngine)
  backend/app/strategy/backtest.py    (BacktestEngine)
  backend/app/tools/strategy_optimization.py (StrategyOptimizationTool)
  backend/app/tools/strategy_backtest.py     (StrategyBacktestTool)

Python floats are modelled as exact rationals; Python round(x, 2) is
round half to even, modelled exactly by round2 below.  Values that come
from outside the embedded fragment (the database-backed ETF pool, the
Wind price feed, the numpy generator stream) are parameters of the
corresponding definitions.
-/

namespace ETFAgent

/-- Asset-class bucket of an ETF.  The Python code classifies an ETF by
substring tests on its asset-class label: a label containing 债券 or bond
is bucketed as a bond, one containing 股票 or equity as a stock, anything
else as other.  The tests appear in mutually exclusive if/elif chains, so
each label yields exactly one bucket; the embedding records that bucket. -/
inductive AssetClass where
  | bond
  | stock
  | other
deriving DecidableEq

/-- An ETF candidate; fields of the Python dict not read by any embedded
function (sector, market_cap, expense_ratio, nav) are omitted. -/
structure Etf where
  code : String
  name : String
  assetClass : AssetClass
deriving DecidableEq

/-- Boolean form of the bond substring test (债券 or bond in the label). -/
def isBondClass : AssetClass → Bool
  | AssetClass.bond => true
  | _ => false

/-- Boolean form of the stock substring test (股票 or equity in the label). -/
def isStockClass : AssetClass → Bool
  | AssetClass.stock => true
  | _ => false

/-- Boolean form of the catch-all bucket test. -/
def isOtherClass : AssetClass → Bool
  | AssetClass.other => true
  | _ => false

/-- StrategyEngine._conservative_weights: bonds share 0.7, stocks 0.25,
the rest 0.05, each bucket split evenly among its members; a share whose
bucket is empty is simply not assigned (no redistribution). -/
def conservativeWeights (pool : List Etf) : List ℚ :=
  let nBond := (pool.filter (fun e => isBondClass e.assetClass)).length
  let nStock := (pool.filter (fun e => isStockClass e.assetClass)).length
  let nOther := (pool.filter (fun e => isOtherClass e.assetClass)).length
  pool.map (fun e =>
    match e.assetClass with
    | AssetClass.bond => (7 / 10 : ℚ) / (nBond : ℚ)
    | AssetClass.stock => (1 / 4 : ℚ) / (nStock : ℚ)
    | AssetClass.other => (1 / 20 : ℚ) / (nOther : ℚ))

/-- StrategyEngine._balanced_weights via _asset_class_weights with target
allocation 股票 0.6, 债券 0.4: stocks and bonds split their share evenly;
every other ETF falls into the catch-all 其他 group, which this target
allocation does not mention, so it receives weight 0. -/
def balancedWeights (pool : List Etf) : List ℚ :=
  let nBond := (pool.filter (fun e => isBondClass e.assetClass)).length
  let nStock := (pool.filter (fun e => isStockClass e.assetClass)).length
  pool.map (fun e =>
    match e.assetClass with
    | AssetClass.bond => (2 / 5 : ℚ) / (nBond : ℚ)
    | AssetClass.stock => (3 / 5 : ℚ) / (nStock : ℚ)
    | AssetClass.other => 0)

/-- StrategyEngine._aggressive_weights via _asset_class_weights with
target allocation 股票 0.8, 债券 0.15, 其他 0.05. -/
def aggressiveWeights (pool : List Etf) : List ℚ :=
  let nBond := (pool.filter (fun e => isBondClass e.assetClass)).length
  let nStock := (pool.filter (fun e => isStockClass e.assetClass)).length
  let nOther := (pool.filter (fun e => isOtherClass e.assetClass)).length
  pool.map (fun e =>
    match e.assetClass with
    | AssetClass.bond => (3 / 20 : ℚ) / (nBond : ℚ)
    | AssetClass.stock => (4 / 5 : ℚ) / (nStock : ℚ)
    | AssetClass.other => (1 / 20 : ℚ) / (nOther : ℚ))

/-- StrategyEngine._speculative_weights via _asset_class_weights with
target allocation 股票 0.9, 其他 0.1: every ETF whose label does not match
股票 (bonds included) lands in the 其他 group and splits its 0.1 share. -/
def speculativeWeights (pool : List Etf) : List ℚ :=
  let nStock := (pool.filter (fun e => isStockClass e.assetClass)).length
  let nRest := pool.length - nStock
  pool.map (fun e =>
    match e.assetClass with
    | AssetClass.stock => (9 / 10 : ℚ) / (nStock : ℚ)
    | _ => (1 / 10 : ℚ) / (nRest : ℚ))

/-- Python truthiness of the optional target_return as tested by
StrategyEngine._optimize_portfolio: None and 0 are falsy, every other
number is truthy. -/
def truthy : Option ℚ → Bool
  | none => false
  | some x => decide (x ≠ 0)

/-- StrategyEngine._adjust_weights_for_target_return: above 10 the stock
weights are scaled by 1.2 and bond weights by 0.8; below 6 bond weights
are scaled by 1.3 and stock weights by 0.7; otherwise unchanged. -/
def adjustWeightsForTargetReturn (ws : List ℚ) (pool : List Etf) (t : ℚ) : List ℚ :=
  if 10 < t then
    List.zipWith (fun w (e : Etf) =>
      match e.assetClass with
      | AssetClass.stock => w * (6 / 5)
      | AssetClass.bond => w * (4 / 5)
      | AssetClass.other => w) ws pool
  else if t < 6 then
    List.zipWith (fun w (e : Etf) =>
      match e.assetClass with
      | AssetClass.bond => w * (13 / 10)
      | AssetClass.stock => w * (7 / 10)
      | AssetClass.other => w) ws pool
  else ws

/-- Risk-policy dispatch of StrategyEngine._optimize_portfolio: the four
named risk tolerances select their weight policy, anything else gets
equal weights. -/
def baseWeights (pool : List Etf) (riskTolerance : String) : List ℚ :=
  if riskTolerance = "保守" then conservativeWeights pool
  else if riskTolerance = "稳健" then balancedWeights pool
  else if riskTolerance = "积极" then aggressiveWeights pool
  else if riskTolerance = "激进" then speculativeWeights pool
  else List.replicate pool.length ((1 : ℚ) / (pool.length : ℚ))

/-- Final normalization step of StrategyEngine._optimize_portfolio:
divide by the total when it is positive, otherwise leave unchanged. -/
def normalizeWeights (ws : List ℚ) : List ℚ :=
  let total := ws.sum
  if 0 < total then ws.map (fun w => w / total) else ws

/-- StrategyEngine._optimize_portfolio: base weights from the risk
policy, an optional target-return adjustment guarded by Python
truthiness, then normalization. -/
def optimizePortfolio (pool : List Etf) (riskTolerance : String)
    (targetReturn : Option ℚ) : List ℚ :=
  if pool.length = 0 then []
  else
    let ws := baseWeights pool riskTolerance
    let ws := if truthy targetReturn then
        adjustWeightsForTargetReturn ws pool (targetReturn.getD 0)
      else ws
    normalizeWeights ws

/-- Round half to even to the nearest integer, exactly as Python round
behaves on a number representable without binary-float error. -/
def roundHalfEven (x : ℚ) : ℤ :=
  if Int.fract x < 1 / 2 then ⌊x⌋
  else if 1 / 2 < Int.fract x then ⌊x⌋ + 1
  else if ⌊x⌋ % 2 = 0 then ⌊x⌋ else ⌊x⌋ + 1

/-- Python round(x, 2): round half to even at two decimal places. -/
def round2 (x : ℚ) : ℚ := ((roundHalfEven (x * 100) : ℤ) : ℚ) / 100

/-- One entry of the etf_allocations list; fields of the Python dict not
read by any embedded function are omitted. -/
structure Allocation where
  etfCode : String
  etfName : String
  weight : ℚ
  assetClass : AssetClass
deriving DecidableEq

/-- StrategyEngine._build_strategy_config: an entry is kept only when its
normalized weight is strictly greater than 0.01, and its stored weight is
round(weight * 100, 2).  The asset summary is not read by any claim and
is omitted. -/
def buildStrategyConfig (pool : List Etf) (ws : List ℚ) : List Allocation :=
  (pool.zip ws).filterMap (fun p =>
    if 1 / 100 < p.2 then
      some { etfCode := p.1.code, etfName := p.1.name,
             weight := round2 (p.2 * 100), assetClass := p.1.assetClass }
    else none)

/-- Total of the stored percentage weights of an allocation list. -/
def weightSum (allocs : List Allocation) : ℚ :=
  (allocs.map (fun a => a.weight)).sum

/-- Result of strategy generation, narrowed to the fields the claims are
about. -/
structure StrategyResult where
  success : Bool
  error : Option String
  allocations : Option (List Allocation)
deriving DecidableEq

/-- StrategyEngine.generate_strategy from the point where the candidate
pool has been built; the pool (the result of the database-backed
_build_etf_universe) is a parameter.  An empty pool short-circuits into
the explicit failure result of lines 32 to 37 of engine.py. -/
def generateStrategy (pool : List Etf) (riskTolerance : String)
    (targetReturn : Option ℚ) : StrategyResult :=
  if pool.isEmpty then
    { success := false, error := some "未找到符合条件的ETF产品", allocations := none }
  else
    { success := true, error := none,
      allocations := some (buildStrategyConfig pool
        (optimizePortfolio pool riskTolerance targetReturn)) }

/-- Keyword occurrences in the free-text feedback content.  Each field
records whether one fixed Chinese keyword occurs as a substring of the
content string, which is all StrategyEngine._analyze_feedback inspects:
风险太高, 回撤太大, 收益太低, 收益不够, 比例, 调整, 修改. -/
structure FeedbackText where
  riskTooHigh : Bool
  drawdownTooBig : Bool
  returnTooLow : Bool
  returnNotEnough : Bool
  mentionsProportion : Bool
  mentionsAdjust : Bool
  mentionsModify : Bool
deriving DecidableEq

/-- Condition of the risk block of _analyze_feedback. -/
def riskCue (f : FeedbackText) : Bool := f.riskTooHigh || f.drawdownTooBig

/-- Condition of the return block of _analyze_feedback. -/
def returnCue (f : FeedbackText) : Bool := f.returnTooLow || f.returnNotEnough

/-- Condition of the allocation block of _analyze_feedback. -/
def rebalanceCue (f : FeedbackText) : Bool :=
  f.mentionsProportion && (f.mentionsAdjust || f.mentionsModify)

/-- The feedback_type field built by StrategyEngine._analyze_feedback:
three successive independent if blocks overwrite it, so when several
blocks match, the one written last wins. -/
def analyzeFeedbackType (f : FeedbackText) : String :=
  let t := "general"
  let t := if riskCue f then "risk_reduction" else t
  let t := if returnCue f then "return_enhancement" else t
  if rebalanceCue f then "allocation_adjustment" else t

/-- The adjustments list built by StrategyEngine._analyze_feedback: every
matching block appends its tag. -/
def analyzeAdjustments (f : FeedbackText) : List String :=
  (if riskCue f then ["reduce_risk"] else []) ++
  (if returnCue f then ["increase_return"] else []) ++
  (if rebalanceCue f then ["rebalance"] else [])

/-- Renormalization block shared verbatim by the engine feedback
transformations (and by the tool's _adjust_risk_level and
_rebalance_allocations): divide each weight by the current total, scale
to 100 and round to two decimals, skipped when the total is not
positive. -/
def renormalizeAllocations (allocs : List Allocation) : List Allocation :=
  let total := weightSum allocs
  if 0 < total then
    allocs.map (fun a => { a with weight := round2 (a.weight / total * 100) })
  else allocs

/-- StrategyEngine._reduce_strategy_risk: stock weights are multiplied by
0.8 with floor 5, bond weights by 1.4 with cap 60, then the shared
renormalization runs. -/
def reduceStrategyRisk (allocs : List Allocation) : List Allocation :=
  renormalizeAllocations (allocs.map (fun a =>
    match a.assetClass with
    | AssetClass.stock => { a with weight := max (a.weight * (4 / 5)) 5 }
    | AssetClass.bond => { a with weight := min (a.weight * (7 / 5)) 60 }
    | AssetClass.other => a))

/-- StrategyEngine._increase_strategy_return: stock weights are
multiplied by 1.3 with cap 80, bond weights by 0.7 with floor 10, then
the shared renormalization runs. -/
def increaseStrategyReturn (allocs : List Allocation) : List Allocation :=
  renormalizeAllocations (allocs.map (fun a =>
    match a.assetClass with
    | AssetClass.stock => { a with weight := min (a.weight * (13 / 10)) 80 }
    | AssetClass.bond => { a with weight := max (a.weight * (7 / 10)) 10 }
    | AssetClass.other => a))

/-- StrategyEngine._rebalance_strategy: exactly the shared
renormalization block. -/
def rebalanceStrategy (allocs : List Allocation) : List Allocation :=
  renormalizeAllocations allocs

/-- StrategyEngine._apply_optimization: each transformation runs when its
tag is a member of the adjustments list, risk reduction first, then
return enhancement, then rebalancing, each on the previous result. -/
def applyOptimization (allocs : List Allocation) (f : FeedbackText) : List Allocation :=
  let adjs := analyzeAdjustments f
  let s := if "reduce_risk" ∈ adjs then reduceStrategyRisk allocs else allocs
  let s := if "increase_return" ∈ adjs then increaseStrategyReturn s else s
  if "rebalance" ∈ adjs then rebalanceStrategy s else s

/-- StrategyOptimizationTool._adjust_risk_level with direction
conservative: stock weights are multiplied by 0.8 with floor 5, bond
weights by 1.3 with cap 50, then the same renormalization block runs. -/
def toolAdjustRiskConservative (allocs : List Allocation) : List Allocation :=
  renormalizeAllocations (allocs.map (fun a =>
    match a.assetClass with
    | AssetClass.stock => { a with weight := max (a.weight * (4 / 5)) 5 }
    | AssetClass.bond => { a with weight := min (a.weight * (13 / 10)) 50 }
    | AssetClass.other => a))

/-- Daily-return column of one instrument's processed price table, in
trade-date order; none models the NaN that pandas pct_change leaves at
the first row. -/
structure PriceTable where
  dailyReturns : List (Option ℚ)
deriving DecidableEq

/-- Tail of pandas pct_change given the previous price. -/
def pctChangeFrom (prev : ℚ) : List ℚ → List (Option ℚ)
  | [] => []
  | p :: ps => some (p / prev - 1) :: pctChangeFrom p ps

/-- pandas pct_change on a close-price column already in trade-date
order: NaN first, then each price divided by its predecessor minus 1. -/
def pctChange : List ℚ → List (Option ℚ)
  | [] => []
  | p :: ps => none :: pctChangeFrom p ps

/-- Processing applied to successfully fetched price data in
BacktestEngine._get_etf_historical_data: build the frame, sort by trade
date (the input is taken here in date order) and add the pct_change
column, the only column read downstream. -/
def processPriceData (closePrices : List ℚ) : PriceTable :=
  { dailyReturns := pctChange closePrices }

/-- BacktestEngine._generate_mock_data.  The numpy generator is reseeded
with the constant 42 on every call, so the draws form one fixed stream,
passed here as the parameter normal42; the mock frame's daily_return
column holds the raw draws (no leading NaN), and its close-price column
is never read downstream. -/
def generateMockData (normal42 : ℕ → ℚ) (nDays : ℕ) : PriceTable :=
  { dailyReturns := (List.range nDays).map (fun i => some (normal42 i)) }

/-- Outcome of one price-history fetch from the Wind service: a price
list, or a raised exception. -/
inductive FetchOutcome where
  | ok (closePrices : List ℚ)
  | err
deriving DecidableEq

/-- BacktestEngine._get_etf_historical_data: one fetch per allocation
entry; a fetch that raises is replaced by the deterministic mock table
for that instrument alone, and a fetch returning an empty list
contributes no entry at all.  Codes are assumed distinct, as in the
Python dict. -/
def getEtfHistoricalData (normal42 : ℕ → ℚ) (fetch : String → FetchOutcome)
    (allocs : List Allocation) (nDays : ℕ) : List (String × PriceTable) :=
  allocs.foldl (fun acc a =>
    match fetch a.etfCode with
    | FetchOutcome.ok ps =>
        if ps.isEmpty then acc else acc ++ [(a.etfCode, processPriceData ps)]
    | FetchOutcome.err => acc ++ [(a.etfCode, generateMockData normal42 nDays)]) []

/-- The instruments whose fetch raised, hence received synthetic fallback
data.  This set is computed here directly from the fetch outcomes; the
results returned by run_backtest record it nowhere. -/
def syntheticInstruments (fetch : String → FetchOutcome)
    (allocs : List Allocation) : List String :=
  allocs.filterMap (fun a =>
    match fetch a.etfCode with
    | FetchOutcome.err => some a.etfCode
    | FetchOutcome.ok _ => none)

/-- Lookup in the historical-data table by instrument code, the
counterpart of the Python dict access; codes are distinct so the first
match is the match. -/
def lookupTable (code : String) : List (String × PriceTable) → Option PriceTable
  | [] => none
  | (c, t) :: rest => if code = c then some t else lookupTable code rest

/-- Pointwise accumulation of one weighted daily-return column into the
running row sums, the skipna=True row sum of the pandas frame: a missing
value (NaN) contributes nothing, and positions covered by only one of
the two arguments keep the value that is present. -/
def skipnaAdd : List ℚ → List (Option ℚ) → List ℚ
  | acc, [] => acc
  | [], r :: rs => r.getD 0 :: skipnaAdd [] rs
  | a :: acc, r :: rs => (a + r.getD 0) :: skipnaAdd acc rs

/-- BacktestEngine._calculate_portfolio_returns: each held instrument's
daily-return column is scaled by weight/100; rows (positions, standing
for trade dates) are summed across instruments with skipna=True, so a
missing value contributes nothing, a row with no valid value sums to 0,
and the final dropna removes nothing. -/
def calculatePortfolioReturns (data : List (String × PriceTable))
    (allocs : List Allocation) : List ℚ :=
  if data.isEmpty || allocs.isEmpty then []
  else
    let cols := allocs.filterMap (fun a =>
      (lookupTable a.etfCode data).map (fun t =>
        t.dailyReturns.map (fun r => r.map (fun x => x * (a.weight / 100)))))
    if cols.isEmpty then []
    else cols.foldl skipnaAdd []

/-- Compounded total return of a daily return series, as computed by
BacktestEngine._calculate_performance_metrics: the product of (1 + r)
minus 1. -/
def totalReturnOfDaily (rs : List ℚ) : ℚ := (rs.map (fun r => 1 + r)).prod - 1

/-- The annual_return of BacktestEngine._calculate_performance_metrics:
(1 + total_return) raised to the real power 252 / n minus 1, with n the
number of daily observations of the portfolio series. -/
noncomputable def annualReturnEngine (rs : List ℚ) : ℝ :=
  (1 + (totalReturnOfDaily rs : ℝ)) ^ ((252 : ℝ) / (rs.length : ℝ)) - 1

/-- One row of the simulated daily_data consumed by
StrategyBacktestTool._calculate_performance_metrics; both fields are
stored as percentages. -/
structure DailyPoint where
  dailyReturnPct : ℚ
  cumulativeReturnPct : ℚ
deriving DecidableEq

/-- The total_return of StrategyBacktestTool._calculate_performance_metrics:
the last cumulative_return entry divided by 100, or 0 when there is
none; it is read from the data, not compounded from the daily returns. -/
def toolTotalReturn (dailyData : List DailyPoint) : ℚ :=
  ((dailyData.map (fun d => d.cumulativeReturnPct / 100)).getLast?).getD 0

/-- The annual_return of StrategyBacktestTool._calculate_performance_metrics:
(1 + total_return) raised to the real power 365 / n minus 1, with n the
length of the daily_data list, and 0 for an empty list. -/
noncomputable def annualReturnTool (dailyData : List DailyPoint) : ℝ :=
  if dailyData.isEmpty then 0
  else (1 + (toolTotalReturn dailyData : ℝ)) ^ ((365 : ℝ) / (dailyData.length : ℝ)) - 1

/-- Keys of the dict returned by
BacktestEngine._calculate_performance_metrics: empty for an empty
series, otherwise exactly the six base statistics, extended by the four
benchmark statistics when a benchmark series is supplied, it is
non-empty, and the inner-join alignment with the portfolio series is
non-empty (alignment is position-wise in this embedding, so two
non-empty series always align).  No minimum-observation rule exists: the
key set does not depend on the number of observations beyond emptiness. -/
def performanceMetricKeys (portfolioReturns : List ℚ)
    (benchmarkReturns : Option (List ℚ)) : List String :=
  if portfolioReturns.isEmpty then []
  else
    ["total_return", "annual_return", "volatility", "max_drawdown",
     "sharpe_ratio", "win_rate"] ++
    (match benchmarkReturns with
     | some bs =>
         if bs.isEmpty then []
         else ["benchmark_annual_return", "excess_return", "tracking_error",
               "information_ratio"]
     | none => [])

end ETFAgent

namespace ETFAgent

/-- Sample bond ETF used in concrete evaluations. -/
def bondEtf1 : Etf := { code := "511010", name := "国债ETF", assetClass := AssetClass.bond }

/-- Second sample bond ETF. -/
def bondEtf2 : Etf := { code := "511260", name := "十年国债ETF", assetClass := AssetClass.bond }

/-- Sample stock ETF. -/
def stockEtf1 : Etf := { code := "510300", name := "沪深300ETF", assetClass := AssetClass.stock }

/-- Second sample stock ETF. -/
def stockEtf2 : Etf := { code := "510500", name := "中证500ETF", assetClass := AssetClass.stock }

/-- Sample commodity ETF falling in the other bucket. -/
def otherEtf1 : Etf := { code := "518880", name := "黄金ETF", assetClass := AssetClass.other }

/-- Four more distinct other-bucket ETFs, to build pools where the other
bucket splits its conservative 5 percent share five ways. -/
def otherEtf2 : Etf := { code := "159980", name := "有色ETF", assetClass := AssetClass.other }

def otherEtf3 : Etf := { code := "159985", name := "豆粕ETF", assetClass := AssetClass.other }

def otherEtf4 : Etf := { code := "501018", name := "原油基金", assetClass := AssetClass.other }

def otherEtf5 : Etf := { code := "160719", name := "白银基金", assetClass := AssetClass.other }

/-- Pool of claim C7: two bonds, two stocks, one other instrument. -/
def poolC7 : List Etf := [bondEtf1, bondEtf2, stockEtf1, stockEtf2, otherEtf1]

/-- Pool with one bond, one stock and five other-bucket ETFs: under the
conservative policy each of the five others gets exactly 0.01, which the
strict materiality comparison then drops after normalization. -/
def poolC1 : List Etf :=
  [bondEtf1, stockEtf1, otherEtf1, otherEtf2, otherEtf3, otherEtf4, otherEtf5]

/-- Strategy config with one stock entry at 60 percent and one bond entry
at 40 percent, the configuration named by the spec's feedback example. -/
def allocs6040 : List Allocation :=
  [{ etfCode := "510300", etfName := "沪深300ETF", weight := 60,
     assetClass := AssetClass.stock },
   { etfCode := "511010", etfName := "国债ETF", weight := 40,
     assetClass := AssetClass.bond }]

/-- Feedback text containing both a risk keyword (风险太高) and a return
keyword (收益太低). -/
def fbBoth : FeedbackText :=
  { riskTooHigh := true, drawdownTooBig := false, returnTooLow := true,
    returnNotEnough := false, mentionsProportion := false,
    mentionsAdjust := false, mentionsModify := false }

/-- Config whose weights 100/3 and 200/3 sum to exactly 100 but are not
two-decimal numbers, exposing the rounding inside the rebalance
transformation. -/
def allocsThirds : List Allocation :=
  [{ etfCode := "510300", etfName := "沪深300ETF", weight := 100 / 3,
     assetClass := AssetClass.stock },
   { etfCode := "511010", etfName := "国债ETF", weight := 200 / 3,
     assetClass := AssetClass.bond }]

/-- Config summing to exactly 100 on which one rebalance pass rounds the
total down to 99.98, so a second pass moves the large entry from 99.98 to
100.00. -/
def allocsDrift : List Allocation :=
  [{ etfCode := "510300", etfName := "沪深300ETF", weight := 999755 / 10000,
     assetClass := AssetClass.stock },
   { etfCode := "518880", etfName := "黄金ETF", weight := 49 / 10000,
     assetClass := AssetClass.other },
   { etfCode := "159980", etfName := "有色ETF", weight := 49 / 10000,
     assetClass := AssetClass.other },
   { etfCode := "159985", etfName := "豆粕ETF", weight := 49 / 10000,
     assetClass := AssetClass.other },
   { etfCode := "501018", etfName := "原油基金", weight := 49 / 10000,
     assetClass := AssetClass.other },
   { etfCode := "160719", etfName := "白银基金", weight := 49 / 10000,
     assetClass := AssetClass.other }]

/-- Close-price series used for the instrument whose fetch succeeds in
the backtest scenarios. -/
def closesC5 : List ℚ := [100, 101, 102]

/-- Fetch behaviour that raises for the stock instrument only. -/
def fetchErrStock : String → FetchOutcome := fun c =>
  if c = "510300" then FetchOutcome.err else FetchOutcome.ok closesC5

/-- Fetch behaviour that raises for the bond instrument only. -/
def fetchErrBond : String → FetchOutcome := fun c =>
  if c = "511010" then FetchOutcome.err else FetchOutcome.ok closesC5

/-- A concrete stand-in for the seeded generator stream, to instantiate
the backtest scenarios. -/
def streamSample : ℕ → ℚ := fun i => (i : ℚ) / 100

/-- Config with the two instruments of the backtest scenarios at 50
percent each. -/
def allocs5050 : List Allocation :=
  [{ etfCode := "510300", etfName := "沪深300ETF", weight := 50,
     assetClass := AssetClass.stock },
   { etfCode := "511010", etfName := "国债ETF", weight := 50,
     assetClass := AssetClass.bond }]

end ETFAgent

namespace ETFAgent

lemma roundHalfEven_intCast (k : ℤ) : roundHalfEven (k : ℚ) = k := by
  unfold roundHalfEven
  rw [Int.fract_intCast, Int.floor_intCast]
  norm_num

lemma abs_roundHalfEven_sub (x : ℚ) : |((roundHalfEven x : ℤ) : ℚ) - x| ≤ 1 / 2 := by
  have h0 : (0 : ℚ) ≤ Int.fract x := Int.fract_nonneg x
  have h1 : Int.fract x < 1 := Int.fract_lt_one x
  unfold roundHalfEven
  split_ifs with hlt hgt hev
  · rw [abs_sub_comm, Int.self_sub_floor, abs_of_nonneg h0]
    linarith
  · have hgt' : 1 / 2 < Int.fract x := hgt
    have heq : ((⌊x⌋ + 1 : ℤ) : ℚ) - x = 1 - Int.fract x := by
      rw [Int.fract]
      push_cast
      ring
    rw [heq, abs_of_nonneg (by linarith)]
    linarith
  · have hf : Int.fract x = 1 / 2 := le_antisymm (not_lt.mp hgt) (not_lt.mp hlt)
    rw [abs_sub_comm, Int.self_sub_floor, abs_of_nonneg h0, hf]
  · have hf : Int.fract x = 1 / 2 := le_antisymm (not_lt.mp hgt) (not_lt.mp hlt)
    have heq : ((⌊x⌋ + 1 : ℤ) : ℚ) - x = 1 - Int.fract x := by
      rw [Int.fract]
      push_cast
      ring
    rw [heq, hf, abs_of_nonneg (by norm_num)]
    norm_num

lemma abs_round2_sub (x : ℚ) : |round2 x - x| ≤ 1 / 200 := by
  unfold round2
  have h := abs_roundHalfEven_sub (x * 100)
  have heq : ((roundHalfEven (x * 100) : ℤ) : ℚ) / 100 - x
      = (((roundHalfEven (x * 100) : ℤ) : ℚ) - x * 100) / 100 := by ring
  rw [heq, abs_div]
  have h100 : |(100 : ℚ)| = 100 := abs_of_pos (by norm_num)
  rw [h100]
  calc |((roundHalfEven (x * 100) : ℤ) : ℚ) - x * 100| / 100 ≤ (1 / 2) / 100 := by gcongr
    _ = 1 / 200 := by norm_num

lemma round2_intQuotient (k : ℤ) : round2 ((k : ℚ) / 100) = (k : ℚ) / 100 := by
  unfold round2
  rw [div_mul_cancel₀ _ (by norm_num : (100 : ℚ) ≠ 0), roundHalfEven_intCast]

lemma round2_round2 (x : ℚ) : round2 (round2 x) = round2 x := by
  unfold round2
  rw [div_mul_cancel₀ _ (by norm_num : (100 : ℚ) ≠ 0), roundHalfEven_intCast]

lemma abs_sum_round2_sub (l : List ℚ) :
    |(l.map (fun w => round2 (w * 100))).sum - 100 * l.sum| ≤ (l.length : ℚ) / 200 := by
  induction l with
  | nil => simp
  | cons w l ih =>
    simp only [List.map_cons, List.sum_cons, List.length_cons]
    have h1 : |round2 (w * 100) - 100 * w| ≤ 1 / 200 := by
      rw [mul_comm 100 w]
      exact abs_round2_sub (w * 100)
    calc |round2 (w * 100) + (l.map (fun w => round2 (w * 100))).sum - 100 * (w + l.sum)|
        = |(round2 (w * 100) - 100 * w) +
            ((l.map (fun w => round2 (w * 100))).sum - 100 * l.sum)| := by
          congr 1
          ring
      _ ≤ |round2 (w * 100) - 100 * w| +
            |(l.map (fun w => round2 (w * 100))).sum - 100 * l.sum| := abs_add _ _
      _ ≤ 1 / 200 + (l.length : ℚ) / 200 := add_le_add h1 ih
      _ = ((l.length + 1 : ℕ) : ℚ) / 200 := by push_cast; ring

lemma weightSum_buildStrategyConfig (pool : List Etf) : ∀ (ws : List ℚ),
    ws.length = pool.length → (∀ w ∈ ws, 1 / 100 < w) →
    weightSum (buildStrategyConfig pool ws)
      = (ws.map (fun w => round2 (w * 100))).sum := by
  induction pool with
  | nil =>
    intro ws hlen _
    cases ws with
    | nil => simp [buildStrategyConfig, weightSum]
    | cons w ws => simp at hlen
  | cons e pool ih =>
    intro ws hlen hbig
    cases ws with
    | nil => simp at hlen
    | cons w ws =>
      have hw : 1 / 100 < w := hbig w (List.mem_cons_self _ _)
      have hrest := ih ws (by simpa using hlen)
        (fun x hx => hbig x (List.mem_cons_of_mem _ hx))
      simp only [buildStrategyConfig, List.zip_cons_cons, List.filterMap_cons] at hrest ⊢
      rw [if_pos hw]
      simp only [weightSum, List.map_cons, List.sum_cons] at hrest ⊢
      rw [hrest]

/-- Claim C1 (amended): in StrategyEngine, entries with normalized weight
at most 0.01 are dropped by _build_strategy_config after the
normalization done in _optimize_portfolio, so the stored weights can sum
to well under 100; when no entry falls at or below the 1 percent
threshold, nothing is dropped and the sum of stored weights differs from
100 only by the two-decimal rounding, at most 0.005 per entry. -/
theorem weightSum_near_100_when_no_drop (pool : List Etf) (ws : List ℚ)
    (hlen : ws.length = pool.length) (hsum : ws.sum = 1)
    (hbig : ∀ w ∈ ws, 1 / 100 < w) :
    |weightSum (buildStrategyConfig pool ws) - 100| ≤ (pool.length : ℚ) / 200 := by
  rw [weightSum_buildStrategyConfig pool ws hlen hbig]
  have h := abs_sum_round2_sub ws
  rw [hsum, mul_one, hlen] at h
  exact h

/-- Witness for the amended claim C1 at a concrete two-ETF pool with
weights one half each. -/
theorem weightSum_near_100_when_no_drop_witness :
    ([(3 : ℚ) / 5, 2 / 5].length = [bondEtf1, stockEtf1].length ∧
      ([(3 : ℚ) / 5, 2 / 5]).sum = 1 ∧ (∀ w ∈ [(3 : ℚ) / 5, 2 / 5], 1 / 100 < w)) ∧
    |weightSum (buildStrategyConfig [bondEtf1, stockEtf1] [3 / 5, 2 / 5]) - 100|
      ≤ (([bondEtf1, stockEtf1] : List Etf).length : ℚ) / 200 := by
  refine ⟨⟨by simp, by norm_num, ?_⟩, ?_⟩
  · intro w hw
    simp at hw
    rcases hw with h | h <;> subst h <;> norm_num
  · exact weightSum_near_100_when_no_drop [bondEtf1, stockEtf1] [3 / 5, 2 / 5]
      (by simp) (by norm_num)
      (by
        intro w hw
        simp at hw
        rcases hw with h | h <;> subst h <;> norm_num)

set_option maxRecDepth 2000 in
/-- Claim C1 (counterexample): a successful strategy from a non-empty
pool of one bond, one stock and five other-class ETFs has a non-empty
allocation list whose weights sum to 95, because the five entries whose
normalized weight equals exactly 0.01 are dropped only after the
normalization. -/
theorem weightSum_counterexample :
    (generateStrategy poolC1 "保守" none).success = true ∧
    ((generateStrategy poolC1 "保守" none).allocations.getD []) ≠ [] ∧
    ¬ |weightSum ((generateStrategy poolC1 "保守" none).allocations.getD []) - 100|
        < 1 / 100 := by
  have h1 : conservativeWeights poolC1 = [7/10, 1/4, 1/100, 1/100, 1/100, 1/100, 1/100] := by
    norm_num [conservativeWeights, poolC1, bondEtf1, stockEtf1, otherEtf1, otherEtf2,
      otherEtf3, otherEtf4, otherEtf5, List.filter_cons, isBondClass, isStockClass,
      isOtherClass]
  have h2 : normalizeWeights [(7 : ℚ)/10, 1/4, 1/100, 1/100, 1/100, 1/100, 1/100]
      = [7/10, 1/4, 1/100, 1/100, 1/100, 1/100, 1/100] := by
    norm_num [normalizeWeights]
  have hop : optimizePortfolio poolC1 "保守" none
      = normalizeWeights (conservativeWeights poolC1) := rfl
  have hw : optimizePortfolio poolC1 "保守" none
      = [7/10, 1/4, 1/100, 1/100, 1/100, 1/100, 1/100] := by
    rw [hop, h1, h2]
  have r70 : round2 70 = 70 := by norm_num [round2, roundHalfEven, Int.fract]
  have r25 : round2 25 = 25 := by norm_num [round2, roundHalfEven, Int.fract]
  have hb : buildStrategyConfig poolC1 [7/10, 1/4, 1/100, 1/100, 1/100, 1/100, 1/100]
      = [{ etfCode := "511010", etfName := "国债ETF", weight := 70,
           assetClass := AssetClass.bond },
         { etfCode := "510300", etfName := "沪深300ETF", weight := 25,
           assetClass := AssetClass.stock }] := by
    norm_num [buildStrategyConfig, poolC1, bondEtf1, stockEtf1, otherEtf1, otherEtf2,
      otherEtf3, otherEtf4, otherEtf5, r70, r25, List.filterMap_cons]
  have hg : generateStrategy poolC1 "保守" none
      = { success := true, error := none,
          allocations := some
            [{ etfCode := "511010", etfName := "国债ETF", weight := 70,
               assetClass := AssetClass.bond },
             { etfCode := "510300", etfName := "沪深300ETF", weight := 25,
               assetClass := AssetClass.stock }] } := by
    rw [generateStrategy, hw, hb]
    simp [poolC1]
  rw [hg]
  refine ⟨rfl, by simp, ?_⟩
  have hws : weightSum
      [{ etfCode := "511010", etfName := "国债ETF", weight := 70,
         assetClass := AssetClass.bond },
       { etfCode := "510300", etfName := "沪深300ETF", weight := 25,
         assetClass := AssetClass.stock }] = 95 := by
    norm_num [weightSum]
  simp only [Option.getD_some, hws]
  rw [show (95 : ℚ) - 100 = -5 by norm_num, abs_neg,
    abs_of_nonneg (by norm_num : (0 : ℚ) ≤ 5)]
  norm_num

set_option maxRecDepth 2000 in
/-- Claim C7: on a conservative pool of two bonds, two stocks and one
other instrument, the optimizer assigns 0.35 to each bond, 0.125 to each
stock and 0.05 to the other instrument, and the built strategy stores
the percentages 35, 35, 12.5, 12.5 and 5. -/
theorem conservative_pool_split :
    optimizePortfolio poolC7 "保守" none = [7/20, 7/20, 1/8, 1/8, 1/20] ∧
    ((generateStrategy poolC7 "保守" none).allocations.getD []).map (fun a => a.weight)
      = [35, 35, 25/2, 25/2, 5] := by
  have h1 : conservativeWeights poolC7 = [7/20, 7/20, 1/8, 1/8, 1/20] := by
    norm_num [conservativeWeights, poolC7, bondEtf1, bondEtf2, stockEtf1, stockEtf2,
      otherEtf1, List.filter_cons, isBondClass, isStockClass, isOtherClass]
  have h2 : normalizeWeights [(7 : ℚ)/20, 7/20, 1/8, 1/8, 1/20]
      = [7/20, 7/20, 1/8, 1/8, 1/20] := by
    norm_num [normalizeWeights]
  have hop : optimizePortfolio poolC7 "保守" none
      = normalizeWeights (conservativeWeights poolC7) := rfl
  have hw : optimizePortfolio poolC7 "保守" none = [7/20, 7/20, 1/8, 1/8, 1/20] := by
    rw [hop, h1, h2]
  refine ⟨hw, ?_⟩
  have hb : buildStrategyConfig poolC7 [7/20, 7/20, 1/8, 1/8, 1/20]
      = [{ etfCode := "511010", etfName := "国债ETF", weight := 35,
           assetClass := AssetClass.bond },
         { etfCode := "511260", etfName := "十年国债ETF", weight := 35,
           assetClass := AssetClass.bond },
         { etfCode := "510300", etfName := "沪深300ETF", weight := 25/2,
           assetClass := AssetClass.stock },
         { etfCode := "510500", etfName := "中证500ETF", weight := 25/2,
           assetClass := AssetClass.stock },
         { etfCode := "518880", etfName := "黄金ETF", weight := 5,
           assetClass := AssetClass.other }] := by
    have r35 : round2 35 = 35 := by norm_num [round2, roundHalfEven, Int.fract]
    have r125 : round2 (25 / 2) = 25 / 2 := by norm_num [round2, roundHalfEven, Int.fract]
    have r5 : round2 5 = 5 := by norm_num [round2, roundHalfEven, Int.fract]
    norm_num [buildStrategyConfig, poolC7, bondEtf1, bondEtf2, stockEtf1, stockEtf2,
      otherEtf1, r35, r125, r5, List.filterMap_cons]
  rw [generateStrategy, hw, hb]
  simp [poolC7]

/-- Claim C9: strategy generation on an empty candidate pool returns the
explicit failure result: success is false, the no-eligible-instruments
error message is set, and no strategy is produced, in particular no
successful empty allocation list. -/
theorem generateStrategy_empty_pool (riskTolerance : String) (targetReturn : Option ℚ) :
    generateStrategy [] riskTolerance targetReturn
      = { success := false, error := some "未找到符合条件的ETF产品",
          allocations := none } := rfl

lemma baseWeights_nil (rt : String) : baseWeights [] rt = [] := by
  unfold baseWeights
  split_ifs <;>
    simp [conservativeWeights, balancedWeights, aggressiveWeights, speculativeWeights]

/-- Claim C10: a target_return equal to 0 is falsy in Python, so
_optimize_portfolio skips the target-return adjustment entirely and the
weights equal the normalized risk-policy weights, exactly as when no
target_return is supplied. -/
theorem optimizePortfolio_target_zero (pool : List Etf) (rt : String) :
    optimizePortfolio pool rt (some 0) = normalizeWeights (baseWeights pool rt) ∧
    optimizePortfolio pool rt (some 0) = optimizePortfolio pool rt none := by
  have ht : truthy (some 0) = false := by simp [truthy]
  constructor
  · unfold optimizePortfolio
    rcases pool with _ | ⟨e, pool⟩
    · simp [baseWeights_nil, normalizeWeights]
    · simp [ht]
  · unfold optimizePortfolio
    simp [ht, truthy]

end ETFAgent

namespace ETFAgent

lemma mem_adjustments_reduce (f : FeedbackText) :
    ("reduce_risk" ∈ analyzeAdjustments f) ↔ riskCue f = true := by
  unfold analyzeAdjustments
  by_cases h1 : riskCue f <;> by_cases h2 : returnCue f <;>
    by_cases h3 : rebalanceCue f <;> simp [h1, h2, h3]

lemma mem_adjustments_increase (f : FeedbackText) :
    ("increase_return" ∈ analyzeAdjustments f) ↔ returnCue f = true := by
  unfold analyzeAdjustments
  by_cases h1 : riskCue f <;> by_cases h2 : returnCue f <;>
    by_cases h3 : rebalanceCue f <;> simp [h1, h2, h3]

lemma mem_adjustments_rebalance (f : FeedbackText) :
    ("rebalance" ∈ analyzeAdjustments f) ↔ rebalanceCue f = true := by
  unfold analyzeAdjustments
  by_cases h1 : riskCue f <;> by_cases h2 : returnCue f <;>
    by_cases h3 : rebalanceCue f <;> simp [h1, h2, h3]

/-- Claim C3 (amended): feedback classification is not exclusive and not
first-match: the feedback_type label keeps the last matching category in
the order risk, return, allocation, and every matching category's
transformation is applied, risk reduction first, then return
enhancement, then rebalancing, each to the previous result. -/
theorem feedback_all_matches_applied (f : FeedbackText) (allocs : List Allocation) :
    analyzeFeedbackType f =
      (if rebalanceCue f then "allocation_adjustment"
       else if returnCue f then "return_enhancement"
       else if riskCue f then "risk_reduction" else "general") ∧
    applyOptimization allocs f =
      (if rebalanceCue f then rebalanceStrategy else id)
        ((if returnCue f then increaseStrategyReturn else id)
          ((if riskCue f then reduceStrategyRisk else id) allocs)) := by
  constructor
  · unfold analyzeFeedbackType
    by_cases h1 : riskCue f <;> by_cases h2 : returnCue f <;>
      by_cases h3 : rebalanceCue f <;> simp [h1, h2, h3]
  · unfold applyOptimization
    by_cases h1 : riskCue f <;> by_cases h2 : returnCue f <;>
      by_cases h3 : rebalanceCue f <;>
        simp [mem_adjustments_reduce, mem_adjustments_increase,
          mem_adjustments_rebalance, h1, h2, h3]


lemma renormalizeAllocations_eval (allocs : List Allocation)
    (hT : 0 < weightSum allocs) :
    renormalizeAllocations allocs
      = allocs.map (fun a =>
          { a with weight := round2 (a.weight / weightSum allocs * 100) }) := by
  unfold renormalizeAllocations
  rw [if_pos hT]

/-- Claim C3 (counterexample): on feedback containing both a risk keyword
and a return keyword, the classifier labels the feedback
return_enhancement (not the claimed highest-priority risk_reduction),
records both adjustments, and the optimizer applies both transformations,
so the result differs from applying risk reduction alone. -/
theorem feedback_priority_counterexample :
    analyzeFeedbackType fbBoth ≠ "risk_reduction" ∧
    analyzeAdjustments fbBoth = ["reduce_risk", "increase_return"] ∧
    applyOptimization allocs6040 fbBoth ≠ reduceStrategyRisk allocs6040 := by
  refine ⟨by decide, by decide, ?_⟩
  have ha : applyOptimization allocs6040 fbBoth
      = increaseStrategyReturn (reduceStrategyRisk allocs6040) := rfl
  have hr : reduceStrategyRisk allocs6040
      = [{ etfCode := "510300", etfName := "沪深300ETF", weight := 923/20,
           assetClass := AssetClass.stock },
         { etfCode := "511010", etfName := "国债ETF", weight := 1077/20,
           assetClass := AssetClass.bond }] := by
    unfold reduceStrategyRisk
    norm_num [allocs6040, max_def, min_def]
    rw [renormalizeAllocations_eval _ (by norm_num [weightSum])]
    norm_num [weightSum]
    norm_num [round2, roundHalfEven, Int.fract]
  have hi : increaseStrategyReturn
      [{ etfCode := "510300", etfName := "沪深300ETF", weight := 923/20,
         assetClass := AssetClass.stock },
       { etfCode := "511010", etfName := "国债ETF", weight := 1077/20,
         assetClass := AssetClass.bond }]
      = [{ etfCode := "510300", etfName := "沪深300ETF", weight := 6141/100,
           assetClass := AssetClass.stock },
         { etfCode := "511010", etfName := "国债ETF", weight := 3859/100,
           assetClass := AssetClass.bond }] := by
    unfold increaseStrategyReturn
    norm_num [max_def, min_def]
    rw [renormalizeAllocations_eval _ (by norm_num [weightSum])]
    norm_num [weightSum]
    norm_num [round2, roundHalfEven, Int.fract]
  rw [ha, hr, hi]
  norm_num [Allocation.mk.injEq]

/-- Claim C2 (amended): on the config with one stock entry at 60 and one
bond entry at 40, the tool transformation (multiply stock by 0.8 with
floor 5, bond by 1.3 with cap 50, renormalize) yields 48.98 and 51.02,
the bond cap having bitten at 40 times 1.3 = 52 > 50; the engine
transformation (multiply stock by 0.8 with floor 5, bond by 1.4 with cap
60, renormalize) yields 46.15 and 53.85. -/
theorem riskReduction_values_60_40 :
    (toolAdjustRiskConservative allocs6040).map (fun a => a.weight)
      = [2449/50, 2551/50] ∧
    (reduceStrategyRisk allocs6040).map (fun a => a.weight)
      = [923/20, 1077/20] := by
  constructor
  · have h : toolAdjustRiskConservative allocs6040
        = [{ etfCode := "510300", etfName := "沪深300ETF", weight := 2449/50,
             assetClass := AssetClass.stock },
           { etfCode := "511010", etfName := "国债ETF", weight := 2551/50,
             assetClass := AssetClass.bond }] := by
      unfold toolAdjustRiskConservative
      norm_num [allocs6040, max_def, min_def]
      rw [renormalizeAllocations_eval _ (by norm_num [weightSum])]
      norm_num [weightSum]
      norm_num [round2, roundHalfEven, Int.fract]
    rw [h]
    norm_num
  · have h : reduceStrategyRisk allocs6040
        = [{ etfCode := "510300", etfName := "沪深300ETF", weight := 923/20,
             assetClass := AssetClass.stock },
           { etfCode := "511010", etfName := "国债ETF", weight := 1077/20,
             assetClass := AssetClass.bond }] := by
      unfold reduceStrategyRisk
      norm_num [allocs6040, max_def, min_def]
      rw [renormalizeAllocations_eval _ (by norm_num [weightSum])]
      norm_num [weightSum]
      norm_num [round2, roundHalfEven, Int.fract]
    rw [h]
    norm_num

/-- Claim C2 (counterexample): neither the tool transformation nor the
engine transformation maps the 60/40 config to the claimed 48/52: the
tool path yields 48.98/51.02 because the 50 percent bond cap binds, and
the engine path multiplies bonds by 1.4 with cap 60, yielding
46.15/53.85. -/
theorem riskReduction_example_false :
    (toolAdjustRiskConservative allocs6040).map (fun a => a.weight) ≠ [48, 52] ∧
    (reduceStrategyRisk allocs6040).map (fun a => a.weight) ≠ [48, 52] := by
  constructor
  · have h : toolAdjustRiskConservative allocs6040
        = [{ etfCode := "510300", etfName := "沪深300ETF", weight := 2449/50,
             assetClass := AssetClass.stock },
           { etfCode := "511010", etfName := "国债ETF", weight := 2551/50,
             assetClass := AssetClass.bond }] := by
      unfold toolAdjustRiskConservative
      norm_num [allocs6040, max_def, min_def]
      rw [renormalizeAllocations_eval _ (by norm_num [weightSum])]
      norm_num [weightSum]
      norm_num [round2, roundHalfEven, Int.fract]
    rw [h]
    norm_num
  · have h : reduceStrategyRisk allocs6040
        = [{ etfCode := "510300", etfName := "沪深300ETF", weight := 923/20,
             assetClass := AssetClass.stock },
           { etfCode := "511010", etfName := "国债ETF", weight := 1077/20,
             assetClass := AssetClass.bond }] := by
      unfold reduceStrategyRisk
      norm_num [allocs6040, max_def, min_def]
      rw [renormalizeAllocations_eval _ (by norm_num [weightSum])]
      norm_num [weightSum]
      norm_num [round2, roundHalfEven, Int.fract]
    rw [h]
    norm_num

lemma round2_weights_of_renormalize (allocs : List Allocation)
    (hT : 0 < weightSum allocs) :
    ∀ a ∈ renormalizeAllocations allocs, round2 a.weight = a.weight := by
  unfold renormalizeAllocations
  rw [if_pos hT]
  intro a ha
  rcases List.mem_map.mp ha with ⟨b, hb, rfl⟩
  exact round2_round2 _

lemma renormalize_fixed (allocs : List Allocation)
    (hsum : weightSum allocs = 100)
    (hW : ∀ a ∈ allocs, round2 a.weight = a.weight) :
    renormalizeAllocations allocs = allocs := by
  unfold renormalizeAllocations
  rw [hsum, if_pos (by norm_num : (0 : ℚ) < 100)]
  have hfix : ∀ a ∈ allocs,
      ({ a with weight := round2 (a.weight / 100 * 100) } : Allocation) = a := by
    intro a ha
    have h1 : a.weight / 100 * 100 = a.weight :=
      div_mul_cancel₀ _ (by norm_num : (100 : ℚ) ≠ 0)
    rw [h1, hW a ha]
  calc allocs.map (fun a => { a with weight := round2 (a.weight / 100 * 100) })
      = allocs.map id := List.map_congr_left hfix
    _ = allocs := List.map_id _

/-- Claim C8 (amended): the rebalance transformation rounds each weight
to round(w / total * 100, 2); applying it twice equals applying it once
whenever the first application's rounded weights sum to exactly 100
(otherwise a second application can move an entry by accumulated
rounding), and the output weights are the rounded proportional values,
so relative proportions are preserved only up to that rounding. -/
theorem rebalance_idem_when_sum_100 (allocs : List Allocation)
    (h : weightSum (rebalanceStrategy allocs) = 100) :
    rebalanceStrategy (rebalanceStrategy allocs) = rebalanceStrategy allocs ∧
    (0 < weightSum allocs →
      (rebalanceStrategy allocs).map (fun a => a.weight)
        = allocs.map (fun a => round2 (a.weight / weightSum allocs * 100))) := by
  constructor
  · by_cases hT : 0 < weightSum allocs
    · exact renormalize_fixed _ h (round2_weights_of_renormalize allocs hT)
    · have hid : rebalanceStrategy allocs = allocs := by
        unfold rebalanceStrategy renormalizeAllocations
        rw [if_neg hT]
      have h100 : weightSum allocs = 100 := by rw [hid] at h; exact h
      exact absurd (by rw [h100]; norm_num : (0 : ℚ) < weightSum allocs) hT
  · intro hT
    unfold rebalanceStrategy renormalizeAllocations
    rw [if_pos hT, List.map_map]
    rfl

/-- Witness for the amended claim C8 at the 60/40 config, whose rebalanced
weights are unchanged and sum to exactly 100. -/
theorem rebalance_idem_when_sum_100_witness :
    weightSum (rebalanceStrategy allocs6040) = 100 ∧
    rebalanceStrategy (rebalanceStrategy allocs6040) = rebalanceStrategy allocs6040 := by
  have hreb : rebalanceStrategy allocs6040 = allocs6040 := by
    unfold rebalanceStrategy
    rw [renormalizeAllocations_eval _ (by norm_num [weightSum, allocs6040])]
    norm_num [weightSum, allocs6040]
    norm_num [round2, roundHalfEven, Int.fract]
  have h : weightSum (rebalanceStrategy allocs6040) = 100 := by
    rw [hreb]
    norm_num [weightSum, allocs6040]
  exact ⟨h, (rebalance_idem_when_sum_100 allocs6040 h).1⟩

/-- Claim C8 (counterexample): on the normalized config with weights
100/3 and 200/3 (sum exactly 100), one rebalance pass yields 33.33 and
66.67, which are no longer in the 1 : 2 proportion; on the normalized
six-entry config 99.9755, 0.0049 ... (sum exactly 100) the first pass
gives 99.98, 0, ..., summing to 99.98, and a second pass moves the first
entry to 100, so rebalance applied twice differs from rebalance applied
once by 0.02 in that entry. -/
theorem rebalance_counterexample :
    weightSum allocsThirds = 100 ∧
    (rebalanceStrategy allocsThirds).map (fun a => a.weight) = [3333/100, 6667/100] ∧
    (3333/100 : ℚ) * (200/3) ≠ (6667/100) * (100/3) ∧
    weightSum allocsDrift = 100 ∧
    rebalanceStrategy (rebalanceStrategy allocsDrift) ≠ rebalanceStrategy allocsDrift := by
  have h1 : rebalanceStrategy allocsThirds
      = [{ etfCode := "510300", etfName := "沪深300ETF", weight := 3333/100,
           assetClass := AssetClass.stock },
         { etfCode := "511010", etfName := "国债ETF", weight := 6667/100,
           assetClass := AssetClass.bond }] := by
    unfold rebalanceStrategy
    rw [renormalizeAllocations_eval _ (by norm_num [weightSum, allocsThirds])]
    norm_num [weightSum, allocsThirds]
    norm_num [round2, roundHalfEven, Int.fract]
  have h2 : rebalanceStrategy allocsDrift
      = [{ etfCode := "510300", etfName := "沪深300ETF", weight := 4999/50,
           assetClass := AssetClass.stock },
         { etfCode := "518880", etfName := "黄金ETF", weight := 0,
           assetClass := AssetClass.other },
         { etfCode := "159980", etfName := "有色ETF", weight := 0,
           assetClass := AssetClass.other },
         { etfCode := "159985", etfName := "豆粕ETF", weight := 0,
           assetClass := AssetClass.other },
         { etfCode := "501018", etfName := "原油基金", weight := 0,
           assetClass := AssetClass.other },
         { etfCode := "160719", etfName := "白银基金", weight := 0,
           assetClass := AssetClass.other }] := by
    unfold rebalanceStrategy
    rw [renormalizeAllocations_eval _ (by norm_num [weightSum, allocsDrift])]
    norm_num [weightSum, allocsDrift]
    norm_num [round2, roundHalfEven, Int.fract]
  have h3 : rebalanceStrategy
      [{ etfCode := "510300", etfName := "沪深300ETF", weight := (4999 : ℚ)/50,
         assetClass := AssetClass.stock },
       { etfCode := "518880", etfName := "黄金ETF", weight := 0,
         assetClass := AssetClass.other },
       { etfCode := "159980", etfName := "有色ETF", weight := 0,
         assetClass := AssetClass.other },
       { etfCode := "159985", etfName := "豆粕ETF", weight := 0,
         assetClass := AssetClass.other },
       { etfCode := "501018", etfName := "原油基金", weight := 0,
         assetClass := AssetClass.other },
       { etfCode := "160719", etfName := "白银基金", weight := 0,
         assetClass := AssetClass.other }]
      = [{ etfCode := "510300", etfName := "沪深300ETF", weight := 100,
           assetClass := AssetClass.stock },
         { etfCode := "518880", etfName := "黄金ETF", weight := 0,
           assetClass := AssetClass.other },
         { etfCode := "159980", etfName := "有色ETF", weight := 0,
           assetClass := AssetClass.other },
         { etfCode := "159985", etfName := "豆粕ETF", weight := 0,
           assetClass := AssetClass.other },
         { etfCode := "501018", etfName := "原油基金", weight := 0,
           assetClass := AssetClass.other },
         { etfCode := "160719", etfName := "白银基金", weight := 0,
           assetClass := AssetClass.other }] := by
    unfold rebalanceStrategy
    rw [renormalizeAllocations_eval _ (by norm_num [weightSum])]
    norm_num [weightSum]
    norm_num [round2, roundHalfEven, Int.fract]
  refine ⟨by norm_num [weightSum, allocsThirds], by rw [h1]; norm_num, by norm_num,
    by norm_num [weightSum, allocsDrift], ?_⟩
  rw [h2, h3]
  norm_num [Allocation.mk.injEq]

end ETFAgent

namespace ETFAgent

/-- Claim C4 (amended): the metrics calculator has no minimum-observation
rule and no insufficient-data flag: for every non-empty portfolio series
(19 or 20 observations alike) it returns exactly the six base
statistics, never an insufficient-data marker; only an empty series
yields an empty result. -/
theorem metrics_no_insufficient_flag (rs : List ℚ) (h : rs ≠ []) :
    performanceMetricKeys rs none
      = ["total_return", "annual_return", "volatility", "max_drawdown",
         "sharpe_ratio", "win_rate"] ∧
    "insufficient_data" ∉ performanceMetricKeys rs none := by
  have he : rs.isEmpty = false := by
    cases rs with
    | nil => exact absurd rfl h
    | cons a l => rfl
  constructor
  · simp [performanceMetricKeys, he]
  · simp [performanceMetricKeys, he]

/-- Witness for the amended claim C4 at a series of 19 observations. -/
theorem metrics_no_insufficient_flag_witness :
    List.replicate 19 ((1 : ℚ)/100) ≠ [] ∧
    (performanceMetricKeys (List.replicate 19 ((1 : ℚ)/100)) none
      = ["total_return", "annual_return", "volatility", "max_drawdown",
         "sharpe_ratio", "win_rate"] ∧
    "insufficient_data" ∉ performanceMetricKeys (List.replicate 19 ((1 : ℚ)/100)) none) :=
  ⟨by simp, metrics_no_insufficient_flag _ (by simp)⟩

/-- Claim C4 (counterexample): on a series of exactly 19 observations the
calculator carries no insufficient-data flag and its result has exactly
the same keys as on 20 observations, refuting the claimed below-20
flag. -/
theorem metrics_19_vs_20_counterexample :
    performanceMetricKeys (List.replicate 19 ((1 : ℚ)/100)) none
      = performanceMetricKeys (List.replicate 20 ((1 : ℚ)/100)) none ∧
    "insufficient_data" ∉ performanceMetricKeys (List.replicate 19 ((1 : ℚ)/100)) none ∧
    performanceMetricKeys (List.replicate 19 ((1 : ℚ)/100)) none ≠ [] := by
  refine ⟨?_, ?_, ?_⟩ <;> simp [performanceMetricKeys]

/-- Claim C6 (amended): the engine path computes
annual_return = (1 + total_return) ^ (252 / n) − 1 with total_return the
compounded product of (1 + r) minus 1 and n the number of daily
observations; the tool path instead uses exponent 365 / n and reads its
total_return from the last cumulative_return entry of the daily data. -/
theorem annualReturn_formulas (rs : List ℚ) (dd : List DailyPoint)
    (_h1 : rs ≠ []) (h2 : dd ≠ []) :
    annualReturnEngine rs
      = (1 + (totalReturnOfDaily rs : ℝ)) ^ ((252 : ℝ) / (rs.length : ℝ)) - 1 ∧
    annualReturnTool dd
      = (1 + (toolTotalReturn dd : ℝ)) ^ ((365 : ℝ) / (dd.length : ℝ)) - 1 := by
  refine ⟨rfl, ?_⟩
  cases dd with
  | nil => exact absurd rfl h2
  | cons d dd => rfl

/-- Witness for the amended claim C6 at one-observation inputs. -/
theorem annualReturn_formulas_witness :
    ([(1 : ℚ)/100] ≠ [] ∧ [({ dailyReturnPct := 1, cumulativeReturnPct := 1 } : DailyPoint)] ≠ []) ∧
    (annualReturnEngine [(1 : ℚ)/100]
      = (1 + (totalReturnOfDaily [(1 : ℚ)/100] : ℝ))
          ^ ((252 : ℝ) / (([(1 : ℚ)/100] : List ℚ).length : ℝ)) - 1 ∧
    annualReturnTool [{ dailyReturnPct := 1, cumulativeReturnPct := 1 }]
      = (1 + (toolTotalReturn [{ dailyReturnPct := 1, cumulativeReturnPct := 1 }] : ℝ))
          ^ ((365 : ℝ) / (([({ dailyReturnPct := 1, cumulativeReturnPct := 1 } : DailyPoint)] : List DailyPoint).length : ℝ)) - 1) :=
  ⟨⟨by simp, by simp⟩, annualReturn_formulas _ _ (by simp) (by simp)⟩

/-- Claim C6 (counterexample): on a one-day series with a one percent
daily return, the tool's annual_return is 1.01 ^ 365 − 1, not the
claimed (1 + total_return) ^ (252 / n) − 1 = 1.01 ^ 252 − 1. -/
theorem annualReturn_tool_exponent_counterexample :
    annualReturnTool [{ dailyReturnPct := 1, cumulativeReturnPct := 1 }]
      ≠ (1 + (totalReturnOfDaily [(1 : ℚ)/100] : ℝ))
          ^ ((252 : ℝ) / (([(1 : ℚ)/100] : List ℚ).length : ℝ)) - 1 := by
  have hL : annualReturnTool [{ dailyReturnPct := 1, cumulativeReturnPct := 1 }]
      = (101/100 : ℝ) ^ (365 : ℕ) - 1 := by
    have ht : toolTotalReturn [{ dailyReturnPct := 1, cumulativeReturnPct := 1 }]
        = 1/100 := by
      norm_num [toolTotalReturn]
    unfold annualReturnTool
    rw [ht]
    norm_num
  have hR : (1 + (totalReturnOfDaily [(1 : ℚ)/100] : ℝ))
      ^ ((252 : ℝ) / (([(1 : ℚ)/100] : List ℚ).length : ℝ)) - 1
      = (101/100 : ℝ) ^ (252 : ℕ) - 1 := by
    have ht : totalReturnOfDaily [(1 : ℚ)/100] = 1/100 := by
      norm_num [totalReturnOfDaily]
    rw [ht]
    norm_num
  rw [hL, hR]
  have hlt : (101/100 : ℝ) ^ (252 : ℕ) < (101/100 : ℝ) ^ (365 : ℕ) := by
    apply pow_lt_pow_right₀ (by norm_num : (1 : ℝ) < 101/100) (by norm_num)
  intro h
  rw [sub_left_inj] at h
  rw [h] at hlt
  exact lt_irrefl _ hlt

lemma getEtfHistoricalData_foldl (normal42 : ℕ → ℚ) (fetch : String → FetchOutcome)
    (nDays : ℕ) (allocs : List Allocation) : ∀ (acc : List (String × PriceTable)),
    allocs.foldl (fun acc a =>
      match fetch a.etfCode with
      | FetchOutcome.ok ps =>
          if ps.isEmpty then acc else acc ++ [(a.etfCode, processPriceData ps)]
      | FetchOutcome.err => acc ++ [(a.etfCode, generateMockData normal42 nDays)]) acc
      = acc ++ allocs.filterMap (fun a =>
          match fetch a.etfCode with
          | FetchOutcome.ok ps =>
              if ps.isEmpty then none else some (a.etfCode, processPriceData ps)
          | FetchOutcome.err => some (a.etfCode, generateMockData normal42 nDays)) := by
  induction allocs with
  | nil => intro acc; simp
  | cons a allocs ih =>
    intro acc
    rw [List.foldl_cons, ih, List.filterMap_cons]
    rcases hf : fetch a.etfCode with ps | _
    · by_cases hps : ps.isEmpty
      · simp [hf, hps]
      · simp [hf, hps]
    · simp [hf]

/-- Claim C5 (amended): a fetch failure is replaced, for that instrument
alone, by the fixed mock table drawn from the constant-seed generator
stream, and the backtest continues: the historical-data table is exactly
the per-instrument image of the fetch outcomes, an erring instrument
mapping to the deterministic mock table and a successful instrument to
its own processed prices.  No component of the result records which
instruments fell back. -/
theorem getEtfHistoricalData_characterization (normal42 : ℕ → ℚ)
    (fetch : String → FetchOutcome) (allocs : List Allocation) (nDays : ℕ) :
    getEtfHistoricalData normal42 fetch allocs nDays
      = allocs.filterMap (fun a =>
          match fetch a.etfCode with
          | FetchOutcome.ok ps =>
              if ps.isEmpty then none
              else some (a.etfCode, processPriceData ps)
          | FetchOutcome.err => some (a.etfCode, generateMockData normal42 nDays)) := by
  unfold getEtfHistoricalData
  rw [getEtfHistoricalData_foldl]
  simp

/-- Claim C5 (counterexample): two backtests that differ in which of two
equally weighted instruments used synthetic fallback data produce
different historical-data tables but identical portfolio return series,
hence identical downstream results: the returned result does not flag
(and cannot reveal) which instruments used synthetic data. -/
theorem syntheticData_not_flagged :
    syntheticInstruments fetchErrStock allocs5050
      ≠ syntheticInstruments fetchErrBond allocs5050 ∧
    getEtfHistoricalData streamSample fetchErrStock allocs5050 3
      ≠ getEtfHistoricalData streamSample fetchErrBond allocs5050 3 ∧
    calculatePortfolioReturns
        (getEtfHistoricalData streamSample fetchErrStock allocs5050 3) allocs5050
      = calculatePortfolioReturns
        (getEtfHistoricalData streamSample fetchErrBond allocs5050 3) allocs5050 := by
  have hm : generateMockData streamSample 3
      = { dailyReturns := [some 0, some (1/100), some (1/50)] } := by
    norm_num [generateMockData, streamSample, List.range_succ]
  have hp : processPriceData closesC5
      = { dailyReturns := [none, some (1/100), some (1/101)] } := by
    norm_num [processPriceData, pctChange, pctChangeFrom, closesC5]
  have hne : closesC5.isEmpty = false := rfl
  have hne2 : ¬ closesC5 = [] := by decide
  have hs1 : ("511010" : String) ≠ "510300" := by decide
  have hs2 : ("510300" : String) ≠ "511010" := by decide
  have hd1 : getEtfHistoricalData streamSample fetchErrStock allocs5050 3
      = [("510300", { dailyReturns := [some 0, some (1/100), some (1/50)] }),
         ("511010", { dailyReturns := [none, some (1/100), some (1/101)] })] := by
    rw [getEtfHistoricalData, getEtfHistoricalData_foldl]
    simp [allocs5050, fetchErrStock, hne, hne2, hm, hp, List.filterMap_cons]
  have hd2 : getEtfHistoricalData streamSample fetchErrBond allocs5050 3
      = [("510300", { dailyReturns := [none, some (1/100), some (1/101)] }),
         ("511010", { dailyReturns := [some 0, some (1/100), some (1/50)] })] := by
    rw [getEtfHistoricalData, getEtfHistoricalData_foldl]
    simp [allocs5050, fetchErrBond, hne, hne2, hm, hp, List.filterMap_cons]
  refine ⟨by decide, ?_, ?_⟩
  · rw [hd1, hd2]
    simp
  · rw [hd1, hd2]
    have l11 : lookupTable "510300"
        [("510300", { dailyReturns := [some 0, some (1/100), some (1/50)] }),
         ("511010", { dailyReturns := [none, some (1/100), some (1/101)] })]
        = some { dailyReturns := [some 0, some (1/100), some (1/50)] } := by
      norm_num [lookupTable]
    have l12 : lookupTable "511010"
        [("510300", { dailyReturns := [some 0, some (1/100), some (1/50)] }),
         ("511010", { dailyReturns := [none, some (1/100), some (1/101)] })]
        = some { dailyReturns := [none, some (1/100), some (1/101)] } := by
      norm_num [lookupTable, hs1]
    have l21 : lookupTable "510300"
        [("510300", { dailyReturns := [none, some (1/100), some (1/101)] }),
         ("511010", { dailyReturns := [some 0, some (1/100), some (1/50)] })]
        = some { dailyReturns := [none, some (1/100), some (1/101)] } := by
      norm_num [lookupTable]
    have l22 : lookupTable "511010"
        [("510300", { dailyReturns := [none, some (1/100), some (1/101)] }),
         ("511010", { dailyReturns := [some 0, some (1/100), some (1/50)] })]
        = some { dailyReturns := [some 0, some (1/100), some (1/50)] } := by
      norm_num [lookupTable, hs1]
    have hc1 : calculatePortfolioReturns
        [("510300", { dailyReturns := [some 0, some (1/100), some (1/50)] }),
         ("511010", { dailyReturns := [none, some (1/100), some (1/101)] })] allocs5050
        = [0, 1/100, 151/10100] := by
      norm_num [calculatePortfolioReturns, allocs5050, l11, l12, skipnaAdd,
        List.filterMap_cons]
    have hc2 : calculatePortfolioReturns
        [("510300", { dailyReturns := [none, some (1/100), some (1/101)] }),
         ("511010", { dailyReturns := [some 0, some (1/100), some (1/50)] })] allocs5050
        = [0, 1/100, 151/10100] := by
      norm_num [calculatePortfolioReturns, allocs5050, l21, l22, skipnaAdd,
        List.filterMap_cons]
    rw [hc1, hc2]

end ETFAgent
